import Mathlib

/-!
Verification of the viewport-range normalization and rink-geometry layout of
`rink_plot.py` (function `draw_rink`).

The numeric inputs accepted by `draw_rink` (Python ints and floats) are
modelled by rationals; the fixed rink geometry, which involves square roots
and trigonometric sampling, is modelled over the reals.
-/

namespace NhlRink

/-- A Python value passed as `x_range` or `y_range` to `draw_rink`:
`None`, a string, a number (int or float), a list of numbers, a tuple of
numbers, or any other object.  Tuples and other objects fail every
`isinstance` test in the source and fall through to the default branch. -/
inductive RangeSpec where
  | none
  | str (s : String)
  | num (v : ℚ)
  | list (l : List ℚ)
  | tuple (l : List ℚ)
  | other
  deriving DecidableEq

/-- Lines 75-83 of `rink_plot.py`: resolve the `x_range` argument to a
lower/upper pair.  A string equal to `"half"` or `"ozone"` picks the preset;
a number `v` becomes `[v, 100]`; a non-empty list gets `100` appended and is
truncated to its first two elements; everything else (None, other strings,
tuples, empty lists, other objects) becomes `[-100, 100]`. -/
def resolve_x : RangeSpec → ℚ × ℚ
  | .str s =>
      if s = "half" then (0, 100)
      else if s = "ozone" then (25, 100)
      else (-100, 100)
  | .num v => (v, 100)
  | .list [] => (-100, 100)
  | .list [a] => (a, 100)
  | .list (a :: b :: _) => (a, b)
  | _ => (-100, 100)

/-- Lines 85-91 of `rink_plot.py`: swap a reversed pair, then take
`max(-100, lower)` and `min(100, upper)`, then reset to the full domain when
the resulting lower bound is `>= 100`. -/
def normalize_x (r : RangeSpec) : ℚ × ℚ :=
  let p := resolve_x r
  let q := if p.1 > p.2 then (p.2, p.1) else p
  let c := (max (-100) q.1, min 100 q.2)
  if c.1 ≥ 100 then (-100, 100) else c

/-- Lines 93-101 of `rink_plot.py`: resolve the `y_range` argument.  Only the
string `"half"` is a y-preset. -/
def resolve_y : RangeSpec → ℚ × ℚ
  | .str s => if s = "half" then (0, 42.5) else (-42.5, 42.5)
  | .num v => (v, 42.5)
  | .list [] => (-42.5, 42.5)
  | .list [a] => (a, 42.5)
  | .list (a :: b :: _) => (a, b)
  | _ => (-42.5, 42.5)

/-- Lines 103-109 of `rink_plot.py`.  Note that line 106 of the source reads
`y_range = [max(-42.5, y_range[0]), min(100, y_range[1])]`: the upper bound
is clamped against `100`, not against the y-domain maximum `42.5`. -/
def normalize_y (r : RangeSpec) : ℚ × ℚ :=
  let p := resolve_y r
  let q := if p.1 > p.2 then (p.2, p.1) else p
  let c := (max (-42.5) q.1, min 100 q.2)
  if c.1 ≥ 42.5 then (-42.5, 42.5) else c

/-- The caller's `x_range` argument after `draw_rink` returns.  Line 80 of
the source executes `x_range.append(100)` on a non-empty caller-supplied
list, mutating it in place; the subsequent `x_range = x_range[:2]` only
rebinds the local name.  Every other kind of argument is left untouched. -/
def x_list_after : RangeSpec → RangeSpec
  | .list (a :: t) => .list ((a :: t) ++ [100])
  | r => r

/-- The caller's `y_range` argument after `draw_rink` returns (line 98 of the
source appends `42.5` to a non-empty caller-supplied list). -/
def y_list_after : RangeSpec → RangeSpec
  | .list (a :: t) => .list ((a :: t) ++ [42.5])
  | r => r

/-- The scalar outputs of `draw_rink`: final axis limits, the rink length
used, the figure size handed to the plotting library, the rotation (in
degrees) of the orientation transform, and whether the y-axis is inverted. -/
structure RinkPlot where
  xlim : ℚ × ℚ
  ylim : ℚ × ℚ
  rink_length : ℚ
  figsize : ℚ × ℚ
  rotation : ℚ
  invert_y : Bool
  deriving DecidableEq

/-- Lines 75-120 and 236-256 of `rink_plot.py`, excluding the construction of
the fixed shape catalog (modelled separately) and the calls into matplotlib.
Line 117 divides by `delta_x`; when the normalized x-range has zero extent
this raises `ZeroDivisionError` in Python, modelled here as `Except.error`. -/
def draw_rink_compute (is_horizontal : Bool) (x_range y_range : RangeSpec)
    (rink_length : Option ℚ) : Except String RinkPlot :=
  let x := normalize_x x_range
  let y := normalize_y y_range
  let delta_x := x.2 - x.1
  let delta_y := y.2 - y.1
  let rl : ℚ :=
    match rink_length with
    | Option.none => if is_horizontal ∧ delta_x = 200 then 14 else 8
    | Option.some v => v
  if delta_x = 0 then
    Except.error "ZeroDivisionError"
  else
    let width := rl * delta_y / delta_x
    Except.ok
      { xlim := if is_horizontal then x else y
        ylim := if is_horizontal then y else x
        rink_length := rl
        figsize := if is_horizontal then (rl, width) else (width, rl)
        rotation := if is_horizontal then 0 else 90
        invert_y := !is_horizontal }

/-! ### The fixed shape catalog (lines 125-232 of the source)

The shapes are positioned with real-number geometry (square roots for the
hashmark edge and the goal-line extent, trigonometric sampling for the
filled arc polygons), so this part of the embedding lives over `ℝ`. -/

/-- `np.radians`: degrees to radians. -/
noncomputable def radians (d : ℝ) : ℝ := d * Real.pi / 180

/-- `np.linspace a b n`: `n` evenly spaced samples from `a` to `b`,
endpoints included. -/
noncomputable def linspace (a b : ℝ) (n : ℕ) : List ℝ :=
  (List.range n).map fun (k : ℕ) => a + (b - a) * (k : ℝ) / ((n : ℝ) - 1)

/-- `arc_patch` (lines 7-22 of the source): the vertices of the closed
polygon approximating a filled ellipse arc, sampled at 50 angles between
`t1` and `t2` (in degrees). -/
noncomputable def arc_patch_points (cx cy w h t1 t2 : ℝ) : List (ℝ × ℝ) :=
  (linspace (radians t1) (radians t2) 50).map
    fun θ => (w * Real.cos θ + cx, h * Real.sin θ + cy)

/-- A shape descriptor handed to the plotting surface: a rectangle (corner,
signed width/height), a circle, an ellipse arc (center, diameters, start and
end angle in degrees), a closed polygon, or a line segment, each with its
color and draw order. -/
inductive Shape where
  | rect (x y w h : ℝ) (color : String) (z : ℤ)
  | circle (x y r : ℝ) (color : String) (filled : Bool) (z : ℤ)
  | arc (x y w h t1 t2 : ℝ) (color : String) (z : ℤ)
  | poly (pts : List (ℝ × ℝ)) (filled : Bool) (color : String) (z : ℤ)
  | seg (x1 y1 x2 y2 : ℝ) (color : String) (z : ℤ)

/-- Line 143: half the distance between hashmarks, `67 / 24` feet. -/
noncomputable def between_hashmarks : ℝ := 67 / 24

/-- Line 146: `(15**2 - between_hashmarks**2)**.5`, the faceoff-circle edge
at the hashmark abscissa. -/
noncomputable def hashmark_edge : ℝ :=
  Real.sqrt (15 ^ 2 - between_hashmarks ^ 2)

/-- Line 231: `np.sqrt(28 ** 2 - (28 - 11) ** 2) + (42.5 - 28)`, the half
length of each goal line. -/
noncomputable def end_board_y : ℝ :=
  Real.sqrt (28 ^ 2 - (28 - 11) ^ 2) + (42.5 - 28)

/-- Lines 127-140: the four shapes drawn once, at center ice (center red
line, center faceoff dot, center circle, referee half-circle). -/
noncomputable def center_patches : List Shape :=
  [ .rect (-0.5) (-42.5) 1 85 "red" 0,
    .circle 0 0 0.5 "blue" true 0,
    .circle 0 0 15 "red" false 0,
    .arc 0 (-42.5) 20 20 0 180 "red" 0 ]

/-- Lines 154-166: the three dot/circle patches emitted for one faceoff spot
(side `s`, vertical offset `y`). -/
noncomputable def dot_patches (s y : ℝ) : List Shape :=
  [ .circle (69 * s) y 1 "red" true 0,
    .circle (20 * s) y 1 "red" true 0,
    .circle (69 * s) y 15 "red" false 0 ]

/-- The patches appended inside the `for side in (-1, 1)` loop, in source
order: blue line (152), faceoff dots and circles for `y in (-22, 22)`,
net (192-194), crease (198-199), crease outline arc (204), and the two
corner-board arcs (213-218). -/
noncomputable def side_patches (s : ℝ) : List Shape :=
  [ .rect (25 * s) (-42.5) s 85 "blue" 0 ]
  ++ dot_patches s (-22) ++ dot_patches s 22
  ++ [ .rect (89 * s) (-3) (20 / 12 * s) 6 "grey" 2,
       .poly (arc_patch_points ((89 + 20 / 12) * s) 0 (20 / 12) 3
         (270 + 180 * s) 270) true "grey" 2,
       .rect (89 * s) (-4) (4.5 * -s) 8 "lightblue" (-1),
       .poly (arc_patch_points (84.5 * s) 0 2 4 (270 - 180 * s) 270)
         true "lightblue" (-1),
       .arc (84.5 * s) 0 4 8 (90 * s) (270 * s) "red" 1,
       .arc ((100 - 28) * s) (42.5 - 28) 56 56 (45 - 45 * s) (135 - 45 * s)
         "black" 2,
       .arc ((100 - 28) * s) (-42.5 + 28) 56 56 (225 + 45 * s) (135 - 135 * s)
         "black" 2 ]

/-- Lines 171-178: the four faceoff-line segments for one faceoff spot and
one `circle_side` value `c`. -/
noncomputable def faceoff_lines (s y c : ℝ) : List Shape :=
  [ .seg (69 * s * c + 2 * s) (y + 1.75) (69 * c * s + 6 * s) (y + 1.75) "red" 0,
    .seg (69 * s * c + 2 * s) (y - 1.75) (69 * c * s + 6 * s) (y - 1.75) "red" 0,
    .seg (69 * s * c + 2 * s) (y + 1.75) (69 * c * s + 2 * s) (y + 4.75) "red" 0,
    .seg (69 * s * c + 2 * s) (y - 1.75) (69 * c * s + 2 * s) (y - 4.75) "red" 0 ]

/-- Lines 181-188: the two hashmark segments for one faceoff spot and one
`circle_side` value `c`. -/
noncomputable def hashmark_lines (s y c : ℝ) : List Shape :=
  [ .seg (69 * s * c + between_hashmarks * s) (y - hashmark_edge)
      (69 * s * c + between_hashmarks * s) (y - hashmark_edge - 2) "red" 0,
    .seg (69 * s * c + between_hashmarks * s) (y + hashmark_edge)
      (69 * s * c + between_hashmarks * s) (y + hashmark_edge + 2) "red" 0 ]

/-- The segments plotted for one faceoff spot: the inner
`for circle_side in (-1, 1)` loop. -/
noncomputable def circle_lines (s y : ℝ) : List Shape :=
  (faceoff_lines s y (-1) ++ hashmark_lines s y (-1))
  ++ (faceoff_lines s y 1 ++ hashmark_lines s y 1)

/-- Lines 202-209: crease outline segments and restricted-zone segments. -/
noncomputable def crease_restricted_lines (s : ℝ) : List Shape :=
  [ .seg (89 * s) (-4) (84.5 * s) (-4) "red" 1,
    .seg (89 * s) 4 (84.5 * s) 4 "red" 1,
    .seg (89 * s) (-11) (100 * s) (-14) "red" 0,
    .seg (89 * s) 11 (100 * s) 14 "red" 0 ]

/-- Line 221: one side-board segment (`y = 42.5 * s`, spanning the straight
part of the boards). -/
noncomputable def board_line (s : ℝ) : Shape :=
  .seg (100 - 28) (42.5 * s) (28 - 100) (42.5 * s) "black" 2

/-- Lines 223-232: end-board segment and goal-line segment. -/
noncomputable def end_lines (s : ℝ) : List Shape :=
  [ .seg (100 * s) (42.5 - 28) (100 * s) (28 - 42.5) "black" 2,
    .seg (89 * s) (-end_board_y) (89 * s) end_board_y "red" 1 ]

/-- All segments plotted inside the side loop, in source order. -/
noncomputable def side_lines (s : ℝ) : List Shape :=
  circle_lines s (-22) ++ circle_lines s 22 ++ crease_restricted_lines s
  ++ [board_line s] ++ end_lines s

/-- The full patch catalog, in the order the source appends patches. -/
noncomputable def rink_patches : List Shape :=
  center_patches ++ side_patches (-1) ++ side_patches 1

/-- The full segment catalog, in the order the source plots lines. -/
noncomputable def rink_lines : List Shape :=
  side_lines (-1) ++ side_lines 1

/-- The shape descriptors built by `draw_rink` before the orientation
transform is applied.  The construction in the source (lines 125-232) reads
none of the function's arguments, so the result is the fixed catalog for
every input. -/
noncomputable def draw_rink_shapes (is_horizontal : Bool)
    (x_range y_range : RangeSpec) (rink_length : Option ℚ) :
    List Shape × List Shape :=
  (rink_patches, rink_lines)

/-! ### Reflection across the center line `x = 0` -/

/-- Reflection of a point across the line `x = 0`. -/
def mirrorPoint (p : ℝ × ℝ) : ℝ × ℝ := (-p.1, p.2)

/-- Reflection of a shape descriptor across the line `x = 0`.  A rectangle
keeps its signed width convention; an arc from `t1` to `t2` reflects to the
arc from `180 - t2` to `180 - t1`. -/
noncomputable def mirrorShape : Shape → Shape
  | .rect x y w h c z => .rect (-x) y (-w) h c z
  | .circle x y r c f z => .circle (-x) y r c f z
  | .arc x y w h t1 t2 c z => .arc (-x) y w h (180 - t2) (180 - t1) c z
  | .poly pts f c z => .poly (pts.map mirrorPoint) f c z
  | .seg x1 y1 x2 y2 c z => .seg (-x1) y1 (-x2) y2 c z

/-- Two angles in degrees describing the same ray (equal modulo 360). -/
def angEquiv (a b : ℝ) : Prop := ∃ k : ℤ, b = a + 360 * k

/-- Geometric equivalence of shape descriptors: same drawn figure and same
style, allowing a rectangle's signed-width corner to be rewritten, an arc's
angles to shift by full turns, and a segment's endpoints to swap. -/
def sameShape : Shape → Shape → Prop
  | .rect x y w h c z, .rect x' y' w' h' c' z' =>
      min x (x + w) = min x' (x' + w') ∧ max x (x + w) = max x' (x' + w') ∧
      min y (y + h) = min y' (y' + h') ∧ max y (y + h) = max y' (y' + h') ∧
      c = c' ∧ z = z'
  | .circle x y r c f z, .circle x' y' r' c' f' z' =>
      x = x' ∧ y = y' ∧ r = r' ∧ c = c' ∧ f = f' ∧ z = z'
  | .arc x y w h t1 t2 c z, .arc x' y' w' h' t1' t2' c' z' =>
      x = x' ∧ y = y' ∧ w = w' ∧ h = h' ∧
      angEquiv t1 t1' ∧ angEquiv (t2 - t1) (t2' - t1') ∧ c = c' ∧ z = z'
  | .poly pts f c z, .poly pts' f' c' z' =>
      pts = pts' ∧ f = f' ∧ c = c' ∧ z = z'
  | .seg x1 y1 x2 y2 c z, .seg x1' y1' x2' y2' c' z' =>
      (((x1, y1) = (x1', y1') ∧ (x2, y2) = (x2', y2')) ∨
        ((x1, y1) = (x2', y2') ∧ (x2, y2) = (x1', y1'))) ∧ c = c' ∧ z = z'
  | _, _ => False

/-! ### Theorems -/

/-- **C1.**  The claimed normalization invariant (both bounds clamped into
the axis domain, lower ≤ upper) is violated by the code: line 106 clamps the
y upper bound against `100` instead of `42.5`, so `y_range = [0, 60]`
normalizes to `(0, 60)` with its upper bound outside the y-domain; and the
per-bound `max`/`min` clamp leaves `x_range = [-120, -110]` as
`(-100, -110)`, a reversed pair.  This theorem evaluates the embedded code
at both failing inputs. -/
theorem normalize_clamp_violations :
    normalize_y (.list [0, 60]) = (0, 60) ∧
    ¬ (normalize_y (.list [0, 60])).2 ≤ 42.5 ∧
    normalize_x (.list [-120, -110]) = (-100, -110) ∧
    ¬ (normalize_x (.list [-120, -110])).1 ≤ (normalize_x (.list [-120, -110])).2 := by
  norm_num [normalize_y, resolve_y, normalize_x, resolve_x, min_def, max_def]

/-- **C2 (counterexample).**  `draw_rink` can fail: `x_range = [50, 50]`
normalizes to a zero-extent range and line 117 divides by `delta_x = 0`,
raising `ZeroDivisionError`; the input does not degrade to the full-domain
default. -/
theorem draw_rink_zero_extent_error :
    draw_rink_compute true (.list [50, 50]) .none Option.none =
      Except.error "ZeroDivisionError" := by
  norm_num [draw_rink_compute, normalize_x, resolve_x, min_def, max_def]

/-- **C2 (amended).**  Over the recognized input types, `draw_rink`'s own
computation succeeds exactly when the normalized x-range has nonzero
extent; malformed inputs otherwise degrade to defaults rather than
raising. -/
theorem draw_rink_ok_iff_nonzero_extent (ih : Bool) (xr yr : RangeSpec)
    (rl : Option ℚ) :
    (∃ v, draw_rink_compute ih xr yr rl = Except.ok v) ↔
      (normalize_x xr).2 - (normalize_x xr).1 ≠ 0 := by
  by_cases h : (normalize_x xr).2 - (normalize_x xr).1 = 0 <;>
    simp [draw_rink_compute, h]

/-- Witness for C2's amended theorem: a list input with distinct bounds
succeeds. -/
theorem draw_rink_ok_iff_nonzero_extent_witness :
    ∃ v, draw_rink_compute true (.list [0, 50]) .none Option.none =
      Except.ok v :=
  (draw_rink_ok_iff_nonzero_extent true (.list [0, 50]) .none Option.none).mpr
    (by norm_num [normalize_x, resolve_x, min_def, max_def])

/-- **C3 (counterexample).**  Normalization mutates a caller-supplied list:
after `draw_rink(x_range=[0])`, the caller's list is `[0, 100]`, not
`[0]`. -/
theorem x_list_mutated_on_call :
    x_list_after (.list [0]) ≠ .list [0] := by
  decide

/-- **C3 (amended).**  `draw_rink`'s range normalization leaves every
non-list argument (preset string, number, tuple, absent, other) unchanged,
but a caller-supplied non-empty list is mutated in place by appending the
axis maximum (`100` for x, `42.5` for y). -/
theorem range_arg_mutation_rule :
    (∀ (a : ℚ) (t : List ℚ),
      x_list_after (.list (a :: t)) = .list (a :: (t ++ [100]))) ∧
    (∀ (a : ℚ) (t : List ℚ),
      y_list_after (.list (a :: t)) = .list (a :: (t ++ [42.5]))) ∧
    x_list_after (.list []) = .list [] ∧ y_list_after (.list []) = .list [] ∧
    (∀ s, x_list_after (.str s) = .str s ∧ y_list_after (.str s) = .str s) ∧
    (∀ v, x_list_after (.num v) = .num v ∧ y_list_after (.num v) = .num v) ∧
    (∀ l, x_list_after (.tuple l) = .tuple l ∧
      y_list_after (.tuple l) = .tuple l) ∧
    x_list_after .none = .none ∧ y_list_after .none = .none ∧
    x_list_after .other = .other ∧ y_list_after .other = .other :=
  ⟨fun _ _ => rfl, fun _ _ => rfl, rfl, rfl, fun _ => ⟨rfl, rfl⟩,
    fun _ => ⟨rfl, rfl⟩, fun _ => ⟨rfl, rfl⟩, rfl, rfl, rfl, rfl⟩

/-- **C4.**  A numeric `x_range` input `v` normalizes to
`(clamp(v, -100, 100), 100)`, except that the full domain is returned when
the clamped value reaches `100`. -/
theorem normalize_x_single_number (v : ℚ) :
    normalize_x (.num v) =
      if max (-100) (min 100 v) ≥ 100 then (-100, 100)
      else (max (-100) (min 100 v), 100) := by
  simp only [normalize_x, resolve_x]
  rcases le_or_lt v 100 with h | h
  · simp only [show ¬ (v > (100 : ℚ)) from not_lt.mpr h, if_false,
      min_eq_right h]
    norm_num
  · simp only [show v > (100 : ℚ) from h, if_true,
      min_eq_left (le_of_lt h)]

/-- **C5.**  The named presets resolve to their fixed ranges:
`x_range="half"` to `(0, 100)`, `x_range="ozone"` to `(25, 100)`, and
`y_range="half"` to `(0, 42.5)`. -/
theorem normalize_presets :
    normalize_x (.str "half") = (0, 100) ∧
    normalize_x (.str "ozone") = (25, 100) ∧
    normalize_y (.str "half") = (0, 42.5) := by
  refine ⟨?_, ?_, ?_⟩ <;>
  · simp [normalize_x, resolve_x, normalize_y, resolve_y]
    norm_num [min_def, max_def]

/-- **C10.**  Only built-in lists are treated as pair inputs: a tuple (or
any other unrecognized object) passed as `x_range` or `y_range` is ignored
and the range normalizes to the full axis domain. -/
theorem tuple_inputs_ignored (l : List ℚ) :
    normalize_x (.tuple l) = (-100, 100) ∧
    normalize_y (.tuple l) = (-42.5, 42.5) ∧
    normalize_x .other = (-100, 100) ∧
    normalize_y .other = (-42.5, 42.5) := by
  refine ⟨?_, ?_, ?_, ?_⟩ <;>
    norm_num [normalize_x, resolve_x, normalize_y, resolve_y, min_def, max_def]

/-- **C6.**  With `rink_length` absent, the chosen length is `14` exactly
when the rink is horizontal and the normalized x-range spans the full
domain (extent 200), else `8`; the display width (the figure dimension
paired with the y-extent) always equals `rink_length` times the ratio of
the normalized y-extent to the normalized x-extent; and the two end-to-end
examples from the spec evaluate as claimed (the second with width
`8 * 42.5 / 75 = 68/15`). -/
theorem default_length_and_width_rule :
    (∀ (ih : Bool) (xr yr : RangeSpec) (v : RinkPlot),
        draw_rink_compute ih xr yr Option.none = Except.ok v →
        v.rink_length =
          if ih = true ∧ (normalize_x xr).2 - (normalize_x xr).1 = 200
          then 14 else 8) ∧
    (∀ (ih : Bool) (xr yr : RangeSpec) (rl : Option ℚ) (v : RinkPlot),
        draw_rink_compute ih xr yr rl = Except.ok v →
        (if ih = true then v.figsize.2 else v.figsize.1) =
          v.rink_length * ((normalize_y yr).2 - (normalize_y yr).1) /
            ((normalize_x xr).2 - (normalize_x xr).1)) ∧
    draw_rink_compute true .none .none Option.none =
      Except.ok ⟨(-100, 100), (-42.5, 42.5), 14, (14, 5.95), 0, false⟩ ∧
    draw_rink_compute true (.str "ozone") (.str "half") Option.none =
      Except.ok ⟨(25, 100), (0, 42.5), 8, (8, 68 / 15), 0, false⟩ := by
  refine ⟨?_, ?_, ?_, ?_⟩
  · intro ih xr yr v h
    simp only [draw_rink_compute] at h
    by_cases hd : (normalize_x xr).2 - (normalize_x xr).1 = 0
    · rw [if_pos hd] at h
      exact Except.noConfusion h
    · rw [if_neg hd, Except.ok.injEq] at h
      subst h
      rfl
  · intro ih xr yr rl v h
    simp only [draw_rink_compute] at h
    by_cases hd : (normalize_x xr).2 - (normalize_x xr).1 = 0
    · rw [if_pos hd] at h
      exact Except.noConfusion h
    · rw [if_neg hd, Except.ok.injEq] at h
      subst h
      cases ih <;> rfl
  · simp [draw_rink_compute, normalize_x, resolve_x, normalize_y, resolve_y]
    norm_num [min_def, max_def]
  · simp [draw_rink_compute, normalize_x, resolve_x, normalize_y, resolve_y]
    norm_num [min_def, max_def]

/-- Witness for C6: the all-default horizontal call picks length 14. -/
theorem default_length_and_width_rule_witness :
    (⟨(-100, 100), (-42.5, 42.5), 14, (14, 5.95), 0, false⟩ : RinkPlot).rink_length =
      if true = true ∧
          (normalize_x .none).2 - (normalize_x .none).1 = 200
      then 14 else 8 :=
  default_length_and_width_rule.1 true .none .none _
    default_length_and_width_rule.2.2.1

/-- **C8.**  For a fixed `x_range`, `y_range` and explicit `rink_length`,
the shape descriptors built before the orientation transform are identical
for both orientations; the two runs differ only in the applied rotation
(0 vs 90 degrees), the swap of the axis limits (and of the figure-size
dimensions), and the y-axis inversion. -/
theorem orientation_invariance (xr yr : RangeSpec) (rl : ℚ) (va vb : RinkPlot)
    (ha : draw_rink_compute true xr yr (Option.some rl) = Except.ok va)
    (hb : draw_rink_compute false xr yr (Option.some rl) = Except.ok vb) :
    draw_rink_shapes true xr yr (Option.some rl) =
      draw_rink_shapes false xr yr (Option.some rl) ∧
    va.rotation = 0 ∧ vb.rotation = 90 ∧
    vb.xlim = va.ylim ∧ vb.ylim = va.xlim ∧
    va.invert_y = false ∧ vb.invert_y = true ∧
    vb.rink_length = va.rink_length ∧
    vb.figsize = (va.figsize.2, va.figsize.1) := by
  simp only [draw_rink_compute] at ha hb
  by_cases hd : (normalize_x xr).2 - (normalize_x xr).1 = 0
  · rw [if_pos hd] at ha
    exact Except.noConfusion ha
  · rw [if_neg hd, Except.ok.injEq] at ha hb
    subst ha
    subst hb
    exact ⟨rfl, rfl, rfl, rfl, rfl, rfl, rfl, rfl, rfl⟩

/-- Witness for C8 at the all-default ranges with `rink_length = 10`. -/
theorem orientation_invariance_witness :
    (let va : RinkPlot := ⟨(-100, 100), (-42.5, 42.5), 10, (10, 4.25), 0, false⟩
     let vb : RinkPlot := ⟨(-42.5, 42.5), (-100, 100), 10, (4.25, 10), 90, true⟩
     draw_rink_shapes true RangeSpec.none RangeSpec.none (Option.some 10) =
       draw_rink_shapes false RangeSpec.none RangeSpec.none (Option.some 10) ∧
     va.rotation = 0 ∧ vb.rotation = 90 ∧
     vb.xlim = va.ylim ∧ vb.ylim = va.xlim ∧
     va.invert_y = false ∧ vb.invert_y = true ∧
     vb.rink_length = va.rink_length ∧
     vb.figsize = (va.figsize.2, va.figsize.1)) :=
  orientation_invariance RangeSpec.none RangeSpec.none 10 _ _
    (by simp [draw_rink_compute, normalize_x, resolve_x, normalize_y, resolve_y]
        norm_num [min_def, max_def])
    (by simp [draw_rink_compute, normalize_x, resolve_x, normalize_y, resolve_y]
        norm_num [min_def, max_def])

/-- The goal-line half-length exceeds 36.7 feet
(`sqrt 495 > 22.2` since `22.2 ^ 2 = 492.84 < 495`). -/
theorem end_board_y_gt : (36.7 : ℝ) < end_board_y := by
  have h : ((28 : ℝ) ^ 2 - (28 - 11) ^ 2) = 495 := by norm_num
  have hs : (22.2 : ℝ) < Real.sqrt 495 :=
    (Real.lt_sqrt (by norm_num)).mpr (by norm_num)
  unfold end_board_y
  rw [h]
  norm_num
  linarith

/-- The goal-line half-length is below 36.8 feet
(`sqrt 495 < 22.3` since `495 < 497.29 = 22.3 ^ 2`). -/
theorem end_board_y_lt : end_board_y < (36.8 : ℝ) := by
  have h : ((28 : ℝ) ^ 2 - (28 - 11) ^ 2) = 495 := by norm_num
  have hs : Real.sqrt 495 < 22.3 :=
    (Real.sqrt_lt' (by norm_num)).mpr (by norm_num)
  unfold end_board_y
  rw [h]
  norm_num
  linarith

/-- **C7 (counterexample).**  The computed goal-line half-length is not
approximately 36.65: it differs from 36.65 by more than 0.05 (its value is
`sqrt 495 + 14.5 ≈ 36.749`). -/
theorem end_board_y_not_near_36_65 : ¬ |end_board_y - 36.65| ≤ 0.05 := by
  intro hc
  have h := (abs_le.mp hc).2
  have hg := end_board_y_gt
  norm_num at h
  linarith

/-- **C7 (amended).**  The goal-line half-length computed at line 231
equals `sqrt(28^2 - 17^2) + 14.5` (approximately 36.75), and the goal line
at `x = ±89` spans exactly `y ∈ [-end_board_y, end_board_y]`: both goal-line
segments appear in the plotted segment catalog with those endpoints. -/
theorem end_board_y_formula_and_goal_line :
    end_board_y = Real.sqrt (28 ^ 2 - 17 ^ 2) + 14.5 ∧
    |end_board_y - 36.75| < 0.05 ∧
    Shape.seg (89 * 1) (-end_board_y) (89 * 1) end_board_y "red" 1 ∈ rink_lines ∧
    Shape.seg (89 * (-1)) (-end_board_y) (89 * (-1)) end_board_y "red" 1 ∈
      rink_lines := by
  refine ⟨?_, ?_, ?_, ?_⟩
  · unfold end_board_y
    norm_num
  · rw [abs_lt]
    refine ⟨by linarith [end_board_y_gt], by linarith [end_board_y_lt]⟩
  · simp [rink_lines, side_lines, end_lines]
  · simp [rink_lines, side_lines, end_lines]

theorem angEquiv_refl (a : ℝ) : angEquiv a a := ⟨0, by simp⟩

theorem sameShape_refl (sh : Shape) : sameShape sh sh := by
  cases sh with
  | rect x y w h c z => exact ⟨rfl, rfl, rfl, rfl, rfl, rfl⟩
  | circle x y r c f z => exact ⟨rfl, rfl, rfl, rfl, rfl, rfl⟩
  | arc x y w h t1 t2 c z =>
      exact ⟨rfl, rfl, rfl, rfl, angEquiv_refl _, angEquiv_refl _, rfl, rfl⟩
  | poly pts f c z => exact ⟨rfl, rfl, rfl, rfl⟩
  | seg x1 y1 x2 y2 c z => exact ⟨Or.inl ⟨rfl, rfl⟩, rfl, rfl⟩

theorem faceoff_lines_mirror (s y c : ℝ) :
    (faceoff_lines s y c).map mirrorShape = faceoff_lines (-s) y c := by
  simp only [faceoff_lines, List.map_cons, List.map_nil, mirrorShape,
    List.cons.injEq, Shape.seg.injEq, and_true, true_and, eq_self_iff_true]
  repeat' apply And.intro
  all_goals ring

theorem hashmark_lines_mirror (s y c : ℝ) :
    (hashmark_lines s y c).map mirrorShape = hashmark_lines (-s) y c := by
  simp only [hashmark_lines, List.map_cons, List.map_nil, mirrorShape,
    List.cons.injEq, Shape.seg.injEq, and_true, true_and, eq_self_iff_true]
  repeat' apply And.intro
  all_goals ring

theorem circle_lines_mirror (s y : ℝ) :
    (circle_lines s y).map mirrorShape = circle_lines (-s) y := by
  simp only [circle_lines, List.map_append, faceoff_lines_mirror,
    hashmark_lines_mirror]

theorem crease_restricted_lines_mirror (s : ℝ) :
    (crease_restricted_lines s).map mirrorShape =
      crease_restricted_lines (-s) := by
  simp only [crease_restricted_lines, List.map_cons, List.map_nil, mirrorShape,
    List.cons.injEq, Shape.seg.injEq, and_true, true_and, eq_self_iff_true]
  repeat' apply And.intro
  all_goals ring

theorem end_lines_mirror (s : ℝ) :
    (end_lines s).map mirrorShape = end_lines (-s) := by
  simp only [end_lines, List.map_cons, List.map_nil, mirrorShape,
    List.cons.injEq, Shape.seg.injEq, and_true, true_and, eq_self_iff_true]
  repeat' apply And.intro
  all_goals ring

/-- Each side-board segment is its own reflection across `x = 0` (with its
endpoints swapped): its pair under the sign loop sits across `y = 0`
instead, but the x-reflected equivalent exists in the catalog, namely
itself. -/
theorem board_line_self_mirror (s : ℝ) :
    sameShape (board_line s) (mirrorShape (board_line s)) := by
  refine ⟨Or.inr ⟨?_, ?_⟩, rfl, rfl⟩ <;>
  · rw [Prod.mk.injEq]
    exact ⟨by ring, rfl⟩

theorem circle_lines_sub (s y : ℝ) (hy : y = -22 ∨ y = 22) :
    ∀ a ∈ circle_lines s y, a ∈ side_lines s := by
  rcases hy with rfl | rfl <;>
  · intro a ha
    simp only [side_lines, List.mem_append, List.mem_cons]
    tauto

theorem crease_restricted_lines_sub (s : ℝ) :
    ∀ a ∈ crease_restricted_lines s, a ∈ side_lines s := by
  intro a ha
  simp only [side_lines, List.mem_append, List.mem_cons]
  tauto

theorem end_lines_sub (s : ℝ) : ∀ a ∈ end_lines s, a ∈ side_lines s := by
  intro a ha
  simp only [side_lines, List.mem_append, List.mem_cons]
  tauto

theorem board_line_mem (s : ℝ) : board_line s ∈ side_lines s := by
  simp only [side_lines, List.mem_append, List.mem_cons, List.mem_singleton]
  tauto

theorem side_lines_partner (s : ℝ)
    (hopp : ∀ a ∈ side_lines (-s), a ∈ rink_lines)
    (hself : ∀ a ∈ side_lines s, a ∈ rink_lines) :
    ∀ sh ∈ side_lines s, ∃ t ∈ rink_lines, sameShape t (mirrorShape sh) := by
  intro sh hsh
  simp only [side_lines, List.mem_append, List.mem_singleton] at hsh
  rcases hsh with (((h | h) | h) | h) | h
  · exact ⟨mirrorShape sh,
      hopp _ (circle_lines_sub (-s) (-22) (Or.inl rfl) _
        (circle_lines_mirror s (-22) ▸ List.mem_map_of_mem mirrorShape h)),
      sameShape_refl _⟩
  · exact ⟨mirrorShape sh,
      hopp _ (circle_lines_sub (-s) 22 (Or.inr rfl) _
        (circle_lines_mirror s 22 ▸ List.mem_map_of_mem mirrorShape h)),
      sameShape_refl _⟩
  · exact ⟨mirrorShape sh,
      hopp _ (crease_restricted_lines_sub (-s) _
        (crease_restricted_lines_mirror s ▸ List.mem_map_of_mem mirrorShape h)),
      sameShape_refl _⟩
  · subst h
    exact ⟨board_line s, hself _ (board_line_mem s), board_line_self_mirror s⟩
  · exact ⟨mirrorShape sh,
      hopp _ (end_lines_sub (-s) _
        (end_lines_mirror s ▸ List.mem_map_of_mem mirrorShape h)),
      sameShape_refl _⟩

theorem side_lines_sub_neg : ∀ a ∈ side_lines (-1 : ℝ), a ∈ rink_lines := by
  intro a ha
  simp only [rink_lines, List.mem_append]
  exact Or.inl ha

theorem side_lines_sub_pos : ∀ a ∈ side_lines (1 : ℝ), a ∈ rink_lines := by
  intro a ha
  simp only [rink_lines, List.mem_append]
  exact Or.inr ha

/-- Every segment in the catalog has an equivalent segment at the position
reflected across `x = 0`. -/
theorem rink_lines_mirror_partner :
    ∀ sh ∈ rink_lines, ∃ t ∈ rink_lines, sameShape t (mirrorShape sh) := by
  intro sh hsh
  rcases List.mem_append.mp hsh with h | h
  · refine side_lines_partner (-1) ?_ side_lines_sub_neg sh h
    intro a ha
    rw [neg_neg] at ha
    exact side_lines_sub_pos a ha
  · exact side_lines_partner 1 side_lines_sub_neg side_lines_sub_pos sh h

/-- Reflecting a sampled arc polygon across `x = 0`: when the start angles
and the end angles of two sampling ranges sum to 540 degrees, the sampled
vertices are pointwise reflections (sample `k` of one range sits at angle
`3π - θ_k` of the other, and `cos (3π - θ) = -cos θ`,
`sin (3π - θ) = sin θ`). -/
theorem arc_patch_points_mirror (cx cy w h a b a2 b2 : ℝ)
    (hs : a + a2 = 540) (he : b + b2 = 540) :
    arc_patch_points (-cx) cy w h a2 b2 =
      (arc_patch_points cx cy w h a b).map mirrorPoint := by
  unfold arc_patch_points linspace
  rw [List.map_map, List.map_map, List.map_map]
  refine List.map_congr_left ?_
  intro k hk
  simp only [Function.comp_apply]
  have key : ∀ θ : ℝ,
      (w * Real.cos (3 * Real.pi - θ) + -cx,
        h * Real.sin (3 * Real.pi - θ) + cy) =
        mirrorPoint (w * Real.cos θ + cx, h * Real.sin θ + cy) := by
    intro θ
    have hc : Real.cos (3 * Real.pi - θ) = -Real.cos θ := by
      rw [show 3 * Real.pi - θ = (Real.pi - θ) + 2 * Real.pi by ring,
        Real.cos_add_two_pi, Real.cos_pi_sub]
    have hn : Real.sin (3 * Real.pi - θ) = Real.sin θ := by
      rw [show 3 * Real.pi - θ = (Real.pi - θ) + 2 * Real.pi by ring,
        Real.sin_add_two_pi, Real.sin_pi_sub]
    rw [hc, hn]
    simp only [mirrorPoint]
    rw [Prod.mk.injEq]
    exact ⟨by ring, rfl⟩
  have hθ : radians a2 + (radians b2 - radians a2) * (k : ℝ) /
        (((50 : ℕ) : ℝ) - 1) =
      3 * Real.pi -
        (radians a + (radians b - radians a) * (k : ℝ) / (((50 : ℕ) : ℝ) - 1)) := by
    have h1 : a2 = 540 - a := by linarith
    have h2 : b2 = 540 - b := by linarith
    subst h1
    subst h2
    unfold radians
    ring
  rw [hθ]
  exact key _

/-- The net-back polygon of the right side, reflected, is the net-back
polygon of the left side. -/
theorem net_poly_mirror :
    arc_patch_points ((89 + 20 / 12) * (-1 : ℝ)) 0 (20 / 12) 3
        (270 + 180 * (-1 : ℝ)) 270 =
      (arc_patch_points ((89 + 20 / 12) * (1 : ℝ)) 0 (20 / 12) 3
        (270 + 180 * (1 : ℝ)) 270).map mirrorPoint := by
  rw [show ((89 + 20 / 12) * (-1 : ℝ)) = -((89 + 20 / 12) * (1 : ℝ)) by ring,
    show (270 + 180 * (-1 : ℝ)) = 90 by norm_num,
    show (270 + 180 * (1 : ℝ)) = 450 by norm_num]
  exact arc_patch_points_mirror _ _ _ _ 450 270 90 270 (by norm_num) (by norm_num)

/-- The reverse direction for the net-back polygons. -/
theorem net_poly_mirror_rev :
    arc_patch_points ((89 + 20 / 12) * (1 : ℝ)) 0 (20 / 12) 3
        (270 + 180 * (1 : ℝ)) 270 =
      (arc_patch_points ((89 + 20 / 12) * (-1 : ℝ)) 0 (20 / 12) 3
        (270 + 180 * (-1 : ℝ)) 270).map mirrorPoint := by
  rw [show ((89 + 20 / 12) * (1 : ℝ)) = -((89 + 20 / 12) * (-1 : ℝ)) by ring,
    show (270 + 180 * (-1 : ℝ)) = 90 by norm_num,
    show (270 + 180 * (1 : ℝ)) = 450 by norm_num]
  exact arc_patch_points_mirror _ _ _ _ 90 270 450 270 (by norm_num) (by norm_num)

/-- The crease-front polygon of the right side, reflected, is the
crease-front polygon of the left side. -/
theorem crease_poly_mirror :
    arc_patch_points (84.5 * (-1 : ℝ)) 0 2 4 (270 - 180 * (-1 : ℝ)) 270 =
      (arc_patch_points (84.5 * (1 : ℝ)) 0 2 4
        (270 - 180 * (1 : ℝ)) 270).map mirrorPoint := by
  rw [show (84.5 * (-1 : ℝ)) = -(84.5 * (1 : ℝ)) by ring,
    show (270 - 180 * (-1 : ℝ)) = 450 by norm_num,
    show (270 - 180 * (1 : ℝ)) = 90 by norm_num]
  exact arc_patch_points_mirror _ _ _ _ 90 270 450 270 (by norm_num) (by norm_num)

/-- The reverse direction for the crease-front polygons. -/
theorem crease_poly_mirror_rev :
    arc_patch_points (84.5 * (1 : ℝ)) 0 2 4 (270 - 180 * (1 : ℝ)) 270 =
      (arc_patch_points (84.5 * (-1 : ℝ)) 0 2 4
        (270 - 180 * (-1 : ℝ)) 270).map mirrorPoint := by
  rw [show (84.5 * (1 : ℝ)) = -(84.5 * (-1 : ℝ)) by ring,
    show (270 - 180 * (-1 : ℝ)) = 450 by norm_num,
    show (270 - 180 * (1 : ℝ)) = 90 by norm_num]
  exact arc_patch_points_mirror _ _ _ _ 450 270 90 270 (by norm_num) (by norm_num)

/-- Positional pairing of the side-dependent patches: the patch emitted at
position `j` of the `side = -1` pass is the `x = 0` reflection of the patch
at position `j` of the `side = 1` pass. -/
theorem side_patches_forall2 :
    List.Forall₂ (fun a b => sameShape b (mirrorShape a))
      (side_patches 1) (side_patches (-1)) := by
  simp only [side_patches, dot_patches, List.cons_append, List.nil_append]
  refine .cons ?_ (.cons ?_ (.cons ?_ (.cons ?_ (.cons ?_ (.cons ?_ (.cons ?_
    (.cons ?_ (.cons ?_ (.cons ?_ (.cons ?_ (.cons ?_ (.cons ?_
    (.cons ?_ .nil)))))))))))))
  · exact ⟨by norm_num [min_def], by norm_num [max_def], rfl, rfl, rfl, rfl⟩
  · exact ⟨by norm_num, rfl, rfl, rfl, rfl, rfl⟩
  · exact ⟨by norm_num, rfl, rfl, rfl, rfl, rfl⟩
  · exact ⟨by norm_num, rfl, rfl, rfl, rfl, rfl⟩
  · exact ⟨by norm_num, rfl, rfl, rfl, rfl, rfl⟩
  · exact ⟨by norm_num, rfl, rfl, rfl, rfl, rfl⟩
  · exact ⟨by norm_num, rfl, rfl, rfl, rfl, rfl⟩
  · exact ⟨by norm_num [min_def], by norm_num [max_def], rfl, rfl, rfl, rfl⟩
  · exact ⟨net_poly_mirror, rfl, rfl, rfl⟩
  · exact ⟨by norm_num [min_def], by norm_num [max_def], rfl, rfl, rfl, rfl⟩
  · exact ⟨crease_poly_mirror, rfl, rfl, rfl⟩
  · exact ⟨by norm_num, rfl, rfl, rfl, ⟨0, by norm_num⟩, ⟨1, by norm_num⟩,
      rfl, rfl⟩
  · exact ⟨by norm_num, rfl, rfl, rfl, ⟨0, by norm_num⟩, ⟨0, by norm_num⟩,
      rfl, rfl⟩
  · exact ⟨by norm_num, rfl, rfl, rfl, ⟨0, by norm_num⟩, ⟨-1, by norm_num⟩,
      rfl, rfl⟩

/-- The reverse positional pairing, from the `side = -1` pass to the
`side = 1` pass. -/
theorem side_patches_forall2_rev :
    List.Forall₂ (fun a b => sameShape b (mirrorShape a))
      (side_patches (-1)) (side_patches 1) := by
  simp only [side_patches, dot_patches, List.cons_append, List.nil_append]
  refine .cons ?_ (.cons ?_ (.cons ?_ (.cons ?_ (.cons ?_ (.cons ?_ (.cons ?_
    (.cons ?_ (.cons ?_ (.cons ?_ (.cons ?_ (.cons ?_ (.cons ?_
    (.cons ?_ .nil)))))))))))))
  · exact ⟨by norm_num [min_def], by norm_num [max_def], rfl, rfl, rfl, rfl⟩
  · exact ⟨by norm_num, rfl, rfl, rfl, rfl, rfl⟩
  · exact ⟨by norm_num, rfl, rfl, rfl, rfl, rfl⟩
  · exact ⟨by norm_num, rfl, rfl, rfl, rfl, rfl⟩
  · exact ⟨by norm_num, rfl, rfl, rfl, rfl, rfl⟩
  · exact ⟨by norm_num, rfl, rfl, rfl, rfl, rfl⟩
  · exact ⟨by norm_num, rfl, rfl, rfl, rfl, rfl⟩
  · exact ⟨by norm_num [min_def], by norm_num [max_def], rfl, rfl, rfl, rfl⟩
  · exact ⟨net_poly_mirror_rev, rfl, rfl, rfl⟩
  · exact ⟨by norm_num [min_def], by norm_num [max_def], rfl, rfl, rfl, rfl⟩
  · exact ⟨crease_poly_mirror_rev, rfl, rfl, rfl⟩
  · exact ⟨by norm_num, rfl, rfl, rfl, ⟨1, by norm_num⟩, ⟨-1, by norm_num⟩,
      rfl, rfl⟩
  · exact ⟨by norm_num, rfl, rfl, rfl, ⟨0, by norm_num⟩, ⟨0, by norm_num⟩,
      rfl, rfl⟩
  · exact ⟨by norm_num, rfl, rfl, rfl, ⟨-1, by norm_num⟩, ⟨1, by norm_num⟩,
      rfl, rfl⟩

/-- The four center-ice shapes are each their own reflection across `x = 0`. -/
theorem center_patches_self_mirror :
    ∀ sh ∈ center_patches, sameShape sh (mirrorShape sh) := by
  intro sh hsh
  simp only [center_patches, List.mem_cons, List.not_mem_nil, or_false] at hsh
  rcases hsh with rfl | rfl | rfl | rfl
  · exact ⟨by norm_num [min_def], by norm_num [max_def], rfl, rfl, rfl, rfl⟩
  · exact ⟨by norm_num, rfl, rfl, rfl, rfl, rfl⟩
  · exact ⟨by norm_num, rfl, rfl, rfl, rfl, rfl⟩
  · exact ⟨by norm_num, rfl, rfl, rfl, ⟨0, by norm_num⟩, ⟨0, by norm_num⟩,
      rfl, rfl⟩

theorem forall2_exists {R : Shape → Shape → Prop} {la lb : List Shape}
    (h : List.Forall₂ R la lb) : ∀ a ∈ la, ∃ b ∈ lb, R a b := by
  induction h with
  | nil => exact fun a ha => absurd ha (List.not_mem_nil a)
  | @cons x y ta tb hr _ ih =>
      intro a ha
      rcases List.mem_cons.mp ha with rfl | ha
      · exact ⟨y, List.mem_cons_self _ _, hr⟩
      · obtain ⟨b, hb, hRb⟩ := ih a ha
        exact ⟨b, List.mem_cons_of_mem _ hb, hRb⟩

/-- Every patch in the catalog has an equivalent patch at the position
reflected across `x = 0` (the four center shapes are their own
reflections). -/
theorem rink_patches_mirror_partner :
    ∀ sh ∈ rink_patches, ∃ t ∈ rink_patches, sameShape t (mirrorShape sh) := by
  intro sh hsh
  simp only [rink_patches, List.mem_append] at hsh
  rcases hsh with (h | h) | h
  · exact ⟨sh, by simp only [rink_patches, List.mem_append]; tauto,
      center_patches_self_mirror sh h⟩
  · obtain ⟨t, ht, hR⟩ := forall2_exists side_patches_forall2_rev sh h
    exact ⟨t, by simp only [rink_patches, List.mem_append]; tauto, hR⟩
  · obtain ⟨t, ht, hR⟩ := forall2_exists side_patches_forall2 sh h
    exact ⟨t, by simp only [rink_patches, List.mem_append]; tauto, hR⟩

/-- **C9.**  The shape catalog is mirror-symmetric: the side-dependent
shapes are emitted once per value of the sign multiplier (`side = -1` and
`side = 1`); each side-dependent patch is paired positionally with the
`x = 0` reflection of its counterpart; every patch and every segment in the
catalog has an equivalent shape at the position reflected across `x = 0`;
and the four center-ice shapes, the only unmirrored ones, are each their own
reflection. -/
theorem mirror_symmetry :
    rink_patches = center_patches ++ side_patches (-1) ++ side_patches 1 ∧
    rink_lines = side_lines (-1) ++ side_lines 1 ∧
    List.Forall₂ (fun a b => sameShape b (mirrorShape a))
      (side_patches 1) (side_patches (-1)) ∧
    (∀ sh ∈ rink_patches, ∃ t ∈ rink_patches, sameShape t (mirrorShape sh)) ∧
    (∀ sh ∈ rink_lines, ∃ t ∈ rink_lines, sameShape t (mirrorShape sh)) ∧
    (∀ sh ∈ center_patches, sameShape sh (mirrorShape sh)) :=
  ⟨rfl, rfl, side_patches_forall2, rink_patches_mirror_partner,
    rink_lines_mirror_partner, center_patches_self_mirror⟩

/-- Witness for C9: the right blue line has a mirrored equivalent in the
catalog. -/
theorem mirror_symmetry_witness :
    ∃ t ∈ rink_patches,
      sameShape t (mirrorShape (Shape.rect (25 * 1) (-42.5) 1 85 "blue" 0)) :=
  mirror_symmetry.2.2.2.1 _
    (by simp [rink_patches, side_patches, dot_patches])

end NhlRink
